import Mathlib

/-
Verification of the lb_haproxy configuration client (src/main.go).

The program applies a declarative configuration against a running HAProxy
instance through its administrative API: it probes connectivity (Ping),
registers each backend server with a bounded retry (AddServer, 3 attempts),
applies the load-balancing algorithm (SetLoadBalancingAlgorithm) and applies
the retry policy as two key/value settings (SetConfig).

The embedding below is a shallow one.  The remote control plane is modelled
as an oracle deciding, for each call index and call, whether that single
attempt succeeds; the program is embedded as executable functions that
return the exact ordered trace of API calls issued together with the
program's outcome.  Go errors are modelled as an inductive value; Go's
`fmt.Errorf("... %w", err)` wrapping is the `wrap` constructor when the
wrapped error is non-nil and the `wrapNil` constructor when it is nil.
-/

namespace LbHaproxy

/-- The `BackendConfig` struct from src/main.go: one backend server entry of
the configuration file. -/
structure BackendConfig where
  name : String
  ip : String
  port : Int
  weight : Int
deriving DecidableEq, Repr

/-- The `HealthCheckConfig` struct from src/main.go. -/
structure HealthCheckConfig where
  enabled : Bool
  interval : Int
  fall : Int
  rise : Int
deriving DecidableEq, Repr

/-- The `RetryPolicyConfig` struct from src/main.go. -/
structure RetryPolicyConfig where
  retries : Int
  redispatch : Bool
deriving DecidableEq, Repr

/-- The `Config` struct from src/main.go (the parsed config.json). -/
structure Config where
  haproxyEndpoint : String
  apiKey : String
  loadBalancingAlgorithm : String
  backends : List BackendConfig
  healthCheck : HealthCheckConfig
  retryPolicy : RetryPolicyConfig
deriving DecidableEq, Repr

/-- The `haproxy.Server` value as populated by src/main.go lines 61-73: the value
passed to `AddServer`.  Go zero values for the health fields are the empty
string and 0. -/
structure Server where
  name : String
  ip : String
  port : Int
  weight : Int
  check : Bool
  inter : String
  fall : Int
  rise : Int
deriving DecidableEq, Repr

/-- One administrative API call issued by the program. -/
inductive Call where
  | ping : Call
  | addServer : Server → Call
  | setLoadBalancingAlgorithm : String → Call
  | setConfig : String → String → Call
deriving DecidableEq, Repr

/-- Go error values as the program builds them: `api c` is an error returned
by the client call `c`; `wrap msg e` is `fmt.Errorf(msg + ": %w", e)` with a
non-nil wrapped error `e`; `wrapNil msg` is the same formatting applied to a
nil error (still a non-nil error value in Go). -/
inductive GoError where
  | api : Call → GoError
  | wrap : String → GoError → GoError
  | wrapNil : String → GoError
deriving DecidableEq, Repr

/-- Wrapping by `fmt.Errorf(msg + ": %w", e)` where `e` is a possibly-nil Go
error. -/
def GoError.wrapOpt (msg : String) : Option GoError → GoError
  | none => .wrapNil msg
  | some e => .wrap msg e

/-- The remote control plane: given how many calls were already made (the
global call index) and the call being made, does this single attempt
succeed?  Each call is a fresh single attempt (the client holds no retry
state), matching spec section 4.1. -/
def Oracle : Type := Nat → Call → Bool

/-- The `haproxy.Server` value built for one backend (src/main.go lines
61-73).  `Check` is set from `config.HealthCheck.Enabled`; the `Inter`,
`Fall` and `Rise` fields are assigned only when health checking is enabled
(`Inter` via `fmt.Sprintf("%ds", interval)`), otherwise they keep their Go
zero values. -/
def mkServer (cfg : Config) (backend : BackendConfig) : Server :=
  let server : Server :=
    { name := backend.name
      ip := backend.ip
      port := backend.port
      weight := backend.weight
      check := cfg.healthCheck.enabled
      inter := ""
      fall := 0
      rise := 0 }
  if cfg.healthCheck.enabled then
    { server with
        inter := toString cfg.healthCheck.interval ++ "s"
        fall := cfg.healthCheck.fall
        rise := cfg.healthCheck.rise }
  else server

/-- The loop body of `addServerWithRetry` (src/main.go lines 110-121):
`for i := 0; i < retries; i++` with `err` carrying the last attempt's error
(nil before the first attempt).  Returns the calls issued, the next global
call index, and the returned error (`none` for a nil return). -/
def addServerLoop (o : Oracle) (server : Server) :
    Nat → Nat → Option GoError → List Call × Nat × Option GoError
  | n, 0, lastErr =>
    ([], n, some (.wrapOpt ("failed to finally add server " ++ server.name) lastErr))
  | n, fuel + 1, _ =>
    if o n (.addServer server) then
      ([.addServer server], n + 1, none)
    else
      let rest := addServerLoop o server (n + 1) fuel (some (.api (.addServer server)))
      (.addServer server :: rest.1, rest.2.1, rest.2.2)

/-- Function `addServerWithRetry` (src/main.go lines 110-121).  A Go `for i := 0;
i < retries; i++` loop runs `max retries 0` iterations, hence the
`Int.toNat` fuel. -/
def addServerWithRetry (o : Oracle) (n : Nat) (server : Server) (retries : Int) :
    List Call × Nat × Option GoError :=
  addServerLoop o server n retries.toNat none

/-- The per-backend registration loop of `main` (src/main.go lines 60-78):
for each backend, build the server value and call `addServerWithRetry` with
the literal retry bound 3; a failure is logged (recorded in the outcome
list) and the loop continues.  Returns the calls issued, the next global
call index, and the per-backend outcomes in declared order. -/
def registerAll (o : Oracle) (cfg : Config) :
    Nat → List BackendConfig → List Call × Nat × List (String × Option GoError)
  | n, [] => ([], n, [])
  | n, backend :: rest =>
    let r := addServerWithRetry o n (mkServer cfg backend) 3
    let tail := registerAll o cfg r.2.1 rest
    (r.1 ++ tail.1, tail.2.1, (backend.name, r.2.2) :: tail.2.2)

/-- The redispatch value string (src/main.go lines 131-137): `"on"` when
redispatch is enabled, `"off"` otherwise. -/
def redispatchVal (redispatch : Bool) : String :=
  if redispatch then "on" else "off"

/-- Function `setRetryPolicy` (src/main.go lines 124-145): sets `"retries"` to the
stringified retry count; only if that call succeeded, sets
`"option redispatch"` to `"on"`/`"off"`; either failure is returned to the
caller wrapped. -/
def setRetryPolicy (o : Oracle) (n : Nat) (rp : RetryPolicyConfig) :
    List Call × Nat × Option GoError :=
  let retriesCall : Call := .setConfig "retries" (toString rp.retries)
  if o n retriesCall then
    let redispatchCall : Call := .setConfig "option redispatch" (redispatchVal rp.redispatch)
    if o (n + 1) redispatchCall then
      ([retriesCall, redispatchCall], n + 2, none)
    else
      ([retriesCall, redispatchCall], n + 2,
        some (.wrap "failed to set redispatch" (.api redispatchCall)))
  else
    ([retriesCall], n + 1,
      some (.wrap "failed to set retries" (.api retriesCall)))

/-- Function `newHAProxyClient` (src/main.go lines 95-107): issue a `Ping`; on
failure return the wrapped connection error, on success return the client
(modelled as the absence of an error). -/
def newHAProxyClient (o : Oracle) : List Call × Option GoError :=
  if o 0 .ping then
    ([Call.ping], none)
  else
    ([Call.ping], some (.wrap "failed to connect to HAProxy API" (.api .ping)))

/-- How a run of `main` ends: `log.Fatalf` on client construction, on
algorithm application or on retry-policy application, or normal
termination. -/
inductive RunResult where
  | fatalClientInit : GoError → RunResult
  | fatalAlgorithm : GoError → RunResult
  | fatalRetryPolicy : GoError → RunResult
  | done : RunResult
deriving DecidableEq, Repr

/-- Observable outcome of a run of `main`: the ordered trace of API calls,
the per-backend registration outcomes (in declared order, `none` meaning
the success message was printed, `some e` meaning the exhausted-retry
failure `e` was logged), and how the run ended. -/
structure RunOut where
  calls : List Call
  outcomes : List (String × Option GoError)
  result : RunResult
deriving DecidableEq, Repr

/-- The body of `main` after the config file is loaded (src/main.go lines
54-92):
construct the client (fatal on Ping failure), register every backend with
retries (never fatal), apply the algorithm (fatal on failure), apply the
retry policy (fatal on failure). -/
def mainRun (o : Oracle) (cfg : Config) : RunOut :=
  let init := newHAProxyClient o
  match init.2 with
  | some e => { calls := init.1, outcomes := [], result := .fatalClientInit e }
  | none =>
    let reg := registerAll o cfg 1 cfg.backends
    let algCall : Call := .setLoadBalancingAlgorithm cfg.loadBalancingAlgorithm
    if o reg.2.1 algCall then
      let rp := setRetryPolicy o (reg.2.1 + 1) cfg.retryPolicy
      match rp.2.2 with
      | some e =>
        { calls := init.1 ++ reg.1 ++ [algCall] ++ rp.1
          outcomes := reg.2.2
          result := .fatalRetryPolicy e }
      | none =>
        { calls := init.1 ++ reg.1 ++ [algCall] ++ rp.1
          outcomes := reg.2.2
          result := .done }
    else
      { calls := init.1 ++ reg.1 ++ [algCall]
        outcomes := reg.2.2
        result := .fatalAlgorithm (.api algCall) }

/-- The add-server request as transmitted on the wire.  The health-check
fields are optional: `none` means they are absent from the request
entirely. -/
structure AddServerRequest where
  name : String
  ip : String
  port : Int
  weight : Int
  healthFields : Option (String × Int × Int)
deriving DecidableEq, Repr

/-- Modelled from the spec: the wire serialization of an `AddServer` call is
performed by the external client library (github.com/haproxytech/client-go),
whose code is not part of this repository.  Per spec section 4.1,
`registerServer` includes the interval/fall/rise fields when health checking
is enabled for the server and omits them entirely when it is disabled. -/
def transmittedRequest (s : Server) : AddServerRequest :=
  { name := s.name
    ip := s.ip
    port := s.port
    weight := s.weight
    healthFields := if s.check then some (s.inter, s.fall, s.rise) else none }

end LbHaproxy

namespace LbHaproxy

/-! ## Concrete test fixtures (used by the witness theorems) -/

/-- A first concrete backend. -/
def bA : BackendConfig := { name := "A", ip := "192.168.1.101", port := 80, weight := 10 }

/-- A second concrete backend. -/
def bB : BackendConfig := { name := "B", ip := "192.168.1.102", port := 81, weight := 20 }

/-- A concrete configuration with health checking enabled (interval 5). -/
def cfg0 : Config :=
  { haproxyEndpoint := "http://localhost:9000"
    apiKey := "key"
    loadBalancingAlgorithm := "roundrobin"
    backends := [bA, bB]
    healthCheck := { enabled := true, interval := 5, fall := 3, rise := 2 }
    retryPolicy := { retries := 3, redispatch := true } }

/-- Variant of `cfg0` with health checking disabled but nonzero
interval/fall/rise. -/
def cfgOff : Config :=
  { cfg0 with healthCheck := { enabled := false, interval := 7, fall := 9, rise := 11 } }

/-- A control plane on which every call succeeds. -/
def oAll : Oracle := fun _ _ => true

/-- A control plane on which every call fails. -/
def oNone : Oracle := fun _ _ => false

/-- A control plane on which adding the server named "A" always fails and
every other call succeeds. -/
def oAB : Oracle := fun _ c =>
  match c with
  | .addServer s => s.name == "B"
  | _ => true

/-- A control plane on which algorithm application always fails and every
other call succeeds. -/
def oNoAlg : Oracle := fun _ c =>
  match c with
  | .setLoadBalancingAlgorithm _ => false
  | _ => true

/-- A control plane on which the very first call fails and every later call
succeeds. -/
def oSecond : Oracle := fun n _ => decide (1 <= n)

/-! ## Helper lemmas -/

/-- The server value built for a backend keeps the backend name. -/
lemma mkServer_name (cfg : Config) (b : BackendConfig) :
    (mkServer cfg b).name = b.name := by
  unfold mkServer
  split <;> rfl

/-- The server value built for a backend carries the configured enabled
flag as its `Check` field. -/
lemma mkServer_check (cfg : Config) (b : BackendConfig) :
    (mkServer cfg b).check = cfg.healthCheck.enabled := by
  unfold mkServer
  split <;> simp_all

/-- Every call issued by the add-server retry loop is an `AddServer` of the
very server being registered. -/
lemma addServerLoop_calls_form (o : Oracle) (s : Server) :
    ∀ fuel n le c, c ∈ (addServerLoop o s n fuel le).1 → c = Call.addServer s := by
  intro fuel
  induction fuel with
  | zero =>
    intro n le c hc
    simp [addServerLoop] at hc
  | succ k ih =>
    intro n le c hc
    rcases hb : o n (Call.addServer s) with _ | _
    · simp [addServerLoop, hb] at hc
      rcases hc with hc | hc
      · exact hc
      · exact ih (n + 1) _ c hc
    · simp [addServerLoop, hb] at hc
      exact hc

/-- Every call issued by `addServerWithRetry` is an `AddServer` of the very
server being registered. -/
lemma addServerWithRetry_calls_form (o : Oracle) (n : Nat) (s : Server) (retries : Int)
    (c : Call) (hc : c ∈ (addServerWithRetry o n s retries).1) : c = Call.addServer s :=
  addServerLoop_calls_form o s retries.toNat n none c hc

/-- With the retry bound 3, at least one `AddServer` attempt is issued. -/
lemma addServerWithRetry_three_ne_nil (o : Oracle) (n : Nat) (s : Server) :
    (addServerWithRetry o n s 3).1 ≠ [] := by
  rcases hb : o n (Call.addServer s) with _ | _ <;>
    simp [addServerWithRetry, addServerLoop, hb]

/-- Every call issued by the registration loop is an `AddServer` of the
server value built for one of the declared backends. -/
lemma registerAll_calls_form (o : Oracle) (cfg : Config) :
    ∀ bs n c, c ∈ (registerAll o cfg n bs).1 →
      ∃ b ∈ bs, c = Call.addServer (mkServer cfg b) := by
  intro bs
  induction bs with
  | nil =>
    intro n c hc
    simp [registerAll] at hc
  | cons b rest ih =>
    intro n c hc
    simp [registerAll] at hc
    rcases hc with hc | hc
    · exact ⟨b, by simp, addServerWithRetry_calls_form o n (mkServer cfg b) 3 c hc⟩
    · obtain ⟨x, hx, hcx⟩ := ih _ c hc
      exact ⟨x, by simp [hx], hcx⟩

/-- The calls issued by `setRetryPolicy`: the retries call always comes
first, and the redispatch call is issued exactly when the retries call
succeeded. -/
lemma setRetryPolicy_calls_eq (o : Oracle) (n : Nat) (rp : RetryPolicyConfig) :
    (setRetryPolicy o n rp).1 =
      if o n (Call.setConfig "retries" (toString rp.retries)) then
        [Call.setConfig "retries" (toString rp.retries),
         Call.setConfig "option redispatch" (redispatchVal rp.redispatch)]
      else [Call.setConfig "retries" (toString rp.retries)] := by
  unfold setRetryPolicy
  rcases hb : o n (Call.setConfig "retries" (toString rp.retries)) with _ | _
  · simp [hb]
  · rcases hb2 : o (n + 1) (Call.setConfig "option redispatch" (redispatchVal rp.redispatch))
      with _ | _ <;> simp [hb, hb2]

/-- The `setRetryPolicy` result is nil exactly when both calls succeeded. -/
lemma setRetryPolicy_err_iff (o : Oracle) (n : Nat) (rp : RetryPolicyConfig) :
    (setRetryPolicy o n rp).2.2 = none ↔
      (o n (Call.setConfig "retries" (toString rp.retries)) = true ∧
       o (n + 1) (Call.setConfig "option redispatch" (redispatchVal rp.redispatch)) = true) := by
  unfold setRetryPolicy
  rcases hb : o n (Call.setConfig "retries" (toString rp.retries)) with _ | _
  · simp [hb]
  · rcases hb2 : o (n + 1) (Call.setConfig "option redispatch" (redispatchVal rp.redispatch))
      with _ | _ <;> simp [hb, hb2]

/-- Every call issued by `setRetryPolicy` is a `SetConfig`. -/
lemma setRetryPolicy_calls_form (o : Oracle) (n : Nat) (rp : RetryPolicyConfig) (c : Call)
    (hc : c ∈ (setRetryPolicy o n rp).1) : ∃ k v, c = Call.setConfig k v := by
  rw [setRetryPolicy_calls_eq] at hc
  rcases hb : o n (Call.setConfig "retries" (toString rp.retries)) with _ | _ <;>
    simp [hb] at hc
  · exact ⟨_, _, hc⟩
  · rcases hc with hc | hc <;> exact ⟨_, _, hc⟩

/-- When the ping succeeds, the trace of a run is the ping, then the
registration calls, then the algorithm call, then some (possibly empty)
list of `SetConfig` calls; the run's outcomes are the registration loop's
outcomes. -/
lemma mainRun_calls_ping_true (o : Oracle) (cfg : Config) (hp : o 0 Call.ping = true) :
    ∃ tail : List Call,
      (mainRun o cfg).calls =
        Call.ping :: ((registerAll o cfg 1 cfg.backends).1 ++
          Call.setLoadBalancingAlgorithm cfg.loadBalancingAlgorithm :: tail) ∧
      (mainRun o cfg).outcomes = (registerAll o cfg 1 cfg.backends).2.2 ∧
      ∀ c ∈ tail, ∃ k v, c = Call.setConfig k v := by
  rcases halg : o (registerAll o cfg 1 cfg.backends).2.1
      (Call.setLoadBalancingAlgorithm cfg.loadBalancingAlgorithm) with _ | _
  · refine ⟨[], ?_, ?_, by simp⟩
    · simp [mainRun, newHAProxyClient, hp, halg]
    · simp [mainRun, newHAProxyClient, hp, halg]
  · refine ⟨(setRetryPolicy o ((registerAll o cfg 1 cfg.backends).2.1 + 1) cfg.retryPolicy).1,
      ?_, ?_, fun c hc => setRetryPolicy_calls_form o _ cfg.retryPolicy c hc⟩
    · rcases herr : (setRetryPolicy o ((registerAll o cfg 1 cfg.backends).2.1 + 1)
          cfg.retryPolicy).2.2 with _ | e <;>
        simp [mainRun, newHAProxyClient, hp, halg, herr]
    · rcases herr : (setRetryPolicy o ((registerAll o cfg 1 cfg.backends).2.1 + 1)
          cfg.retryPolicy).2.2 with _ | e <;>
        simp [mainRun, newHAProxyClient, hp, halg, herr]

/-- Every `AddServer` call in a run's trace carries the server value built
for one of the declared backends. -/
lemma mainRun_addServer_form (o : Oracle) (cfg : Config) (s : Server)
    (h : Call.addServer s ∈ (mainRun o cfg).calls) :
    ∃ b ∈ cfg.backends, s = mkServer cfg b := by
  rcases hp : o 0 Call.ping with _ | _
  · simp [mainRun, newHAProxyClient, hp] at h
  · obtain ⟨tail, hcalls, _, htail⟩ := mainRun_calls_ping_true o cfg hp
    rw [hcalls] at h
    simp at h
    rcases h with h | h
    · obtain ⟨b, hb, hform⟩ := registerAll_calls_form o cfg cfg.backends 1 _ h
      exact ⟨b, hb, by injection hform⟩
    · obtain ⟨k, v, hkv⟩ := htail _ h
      exact absurd hkv (by simp)

/-- Block decomposition of the registration loop: one nonempty block of
`AddServer` calls per declared backend, in declared order, with one recorded
outcome per declared backend. -/
lemma registerAll_blocks (o : Oracle) (cfg : Config) :
    ∀ bs n, ∃ blocks : List (List Call),
      (registerAll o cfg n bs).1 = blocks.flatten ∧
      blocks.length = bs.length ∧
      (registerAll o cfg n bs).2.2.map Prod.fst = bs.map BackendConfig.name ∧
      ∀ p ∈ blocks.zip bs, p.1 ≠ [] ∧
        ∀ c ∈ p.1, c = Call.addServer (mkServer cfg p.2) := by
  intro bs
  induction bs with
  | nil =>
    intro n
    exact ⟨[], by simp [registerAll], by simp, by simp [registerAll], by simp⟩
  | cons b rest ih =>
    intro n
    obtain ⟨blocks, hjoin, hlen, hnames, hall⟩ :=
      ih (addServerWithRetry o n (mkServer cfg b) 3).2.1
    refine ⟨(addServerWithRetry o n (mkServer cfg b) 3).1 :: blocks, ?_, ?_, ?_, ?_⟩
    · simp [registerAll, hjoin]
    · simp [hlen]
    · simp [registerAll, hnames, mkServer_name]
    · intro p hp
      simp at hp
      rcases hp with hp | hp
      · rw [hp]
        exact ⟨addServerWithRetry_three_ne_nil o n (mkServer cfg b),
          fun c hc => addServerWithRetry_calls_form o n (mkServer cfg b) 3 c hc⟩
      · exact hall p hp

end LbHaproxy

namespace LbHaproxy

/-! ## Claim theorems -/

/-- Claim C1: for every configuration with `health_check.enabled = false`, the
request transmitted for every server registered by the run omits the
interval/fall/rise fields entirely, regardless of the configured numeric
values for interval, fall and rise. -/
theorem health_fields_omitted_when_disabled (o : Oracle) (cfg : Config)
    (hdis : cfg.healthCheck.enabled = false) (s : Server)
    (hs : Call.addServer s ∈ (mainRun o cfg).calls) :
    (transmittedRequest s).healthFields = none := by
  obtain ⟨b, _, rfl⟩ := mainRun_addServer_form o cfg s hs
  simp [transmittedRequest, mkServer, hdis]

/-- Witness for C1: in the concrete disabled configuration (with nonzero
interval 7, fall 9, rise 11 configured), the registration of backend `bA`
occurs and its transmitted request carries no health fields. -/
theorem health_fields_omitted_when_disabled_witness :
    cfgOff.healthCheck.enabled = false ∧
    (transmittedRequest (mkServer cfgOff bA)).healthFields = none :=
  ⟨rfl, health_fields_omitted_when_disabled oAll cfgOff rfl (mkServer cfgOff bA) (by decide)⟩

/-- Claim C2: when all three attempts for a server fail, `AddServer` is invoked
exactly 3 times and `addServerWithRetry` returns an error wrapping the last
attempt's failure. -/
theorem addServer_fails_all_three_attempts (o : Oracle) (n : Nat) (s : Server)
    (h1 : o n (Call.addServer s) = false)
    (h2 : o (n + 1) (Call.addServer s) = false)
    (h3 : o (n + 2) (Call.addServer s) = false) :
    (addServerWithRetry o n s 3).1 =
      [Call.addServer s, Call.addServer s, Call.addServer s] ∧
    (addServerWithRetry o n s 3).2.2 =
      some (.wrap ("failed to finally add server " ++ s.name)
        (.api (Call.addServer s))) := by
  simp [addServerWithRetry, addServerLoop, h1, h2, h3, GoError.wrapOpt]

/-- Witness for C2: against the all-failing control plane, registering the
server built for `bA` issues exactly three `AddServer` calls and fails. -/
theorem addServer_fails_all_three_attempts_witness :
    (addServerWithRetry oNone 0 (mkServer cfg0 bA) 3).1 =
      [Call.addServer (mkServer cfg0 bA), Call.addServer (mkServer cfg0 bA),
       Call.addServer (mkServer cfg0 bA)] ∧
    (addServerWithRetry oNone 0 (mkServer cfg0 bA) 3).2.2 =
      some (.wrap ("failed to finally add server " ++ (mkServer cfg0 bA).name)
        (.api (Call.addServer (mkServer cfg0 bA)))) :=
  addServer_fails_all_three_attempts oNone 0 (mkServer cfg0 bA) rfl rfl rfl

/-- Claim C3: `setRetryPolicy` issues the retries key/value call first; the
redispatch call is issued exactly when the retries call succeeded; the
result is nil exactly when both calls succeeded; and for
`retries = 3, redispatch = true` the issued calls are
`("retries","3")` then `("option redispatch","on")`. -/
theorem setRetryPolicy_order_and_failure (o : Oracle) (n : Nat) (rp : RetryPolicyConfig) :
    (setRetryPolicy o n rp).1 =
      (if o n (Call.setConfig "retries" (toString rp.retries)) then
        [Call.setConfig "retries" (toString rp.retries),
         Call.setConfig "option redispatch" (redispatchVal rp.redispatch)]
      else [Call.setConfig "retries" (toString rp.retries)]) ∧
    ((setRetryPolicy o n rp).2.2 = none ↔
      (o n (Call.setConfig "retries" (toString rp.retries)) = true ∧
       o (n + 1) (Call.setConfig "option redispatch" (redispatchVal rp.redispatch)) = true)) ∧
    (setRetryPolicy (fun _ _ => true) 0 { retries := 3, redispatch := true }).1 =
      [Call.setConfig "retries" "3", Call.setConfig "option redispatch" "on"] :=
  ⟨setRetryPolicy_calls_eq o n rp, setRetryPolicy_err_iff o n rp, by decide⟩

/-- Claim C4: if the connectivity probe fails, the run aborts with the connection
failure and no `AddServer`, `SetLoadBalancingAlgorithm` or `SetConfig` call
is ever issued. -/
theorem ping_failure_short_circuit (o : Oracle) (cfg : Config)
    (hp : o 0 Call.ping = false) :
    (mainRun o cfg).result =
      .fatalClientInit (.wrap "failed to connect to HAProxy API" (.api Call.ping)) ∧
    (mainRun o cfg).calls = [Call.ping] ∧
    (∀ s, Call.addServer s ∉ (mainRun o cfg).calls) ∧
    (∀ a, Call.setLoadBalancingAlgorithm a ∉ (mainRun o cfg).calls) ∧
    (∀ k v, Call.setConfig k v ∉ (mainRun o cfg).calls) := by
  simp [mainRun, newHAProxyClient, hp]

/-- Witness for C4: against the all-failing control plane, the concrete run
issues only the ping. -/
theorem ping_failure_short_circuit_witness :
    oNone 0 Call.ping = false ∧ (mainRun oNone cfg0).calls = [Call.ping] :=
  ⟨rfl, (ping_failure_short_circuit oNone cfg0 rfl).2.1⟩

/-- Claim C5: with declared backends `[A, B]`, where all three attempts for `A`
fail and the first attempt for `B` succeeds, the run records the
exhausted-retry failure for `A` and the success for `B`, the `AddServer`
call for `B` is issued, and the algorithm-application call is still
issued. -/
theorem partial_failure_isolation (o : Oracle) (cfg : Config) (A B : BackendConfig)
    (hb : cfg.backends = [A, B])
    (hp : o 0 Call.ping = true)
    (hA1 : o 1 (Call.addServer (mkServer cfg A)) = false)
    (hA2 : o 2 (Call.addServer (mkServer cfg A)) = false)
    (hA3 : o 3 (Call.addServer (mkServer cfg A)) = false)
    (hB : o 4 (Call.addServer (mkServer cfg B)) = true) :
    (mainRun o cfg).outcomes =
      [(A.name, some (.wrap ("failed to finally add server " ++ A.name)
          (.api (Call.addServer (mkServer cfg A))))),
       (B.name, none)] ∧
    Call.addServer (mkServer cfg B) ∈ (mainRun o cfg).calls ∧
    Call.setLoadBalancingAlgorithm cfg.loadBalancingAlgorithm ∈ (mainRun o cfg).calls := by
  have hreg : registerAll o cfg 1 cfg.backends =
      ([Call.addServer (mkServer cfg A), Call.addServer (mkServer cfg A),
        Call.addServer (mkServer cfg A), Call.addServer (mkServer cfg B)], 5,
       [(A.name, some (.wrap ("failed to finally add server " ++ A.name)
           (.api (Call.addServer (mkServer cfg A))))),
        (B.name, none)]) := by
    simp [hb, registerAll, addServerWithRetry, addServerLoop, hA1, hA2, hA3, hB,
      GoError.wrapOpt, mkServer_name]
  obtain ⟨tail, hcalls, houts, _⟩ := mainRun_calls_ping_true o cfg hp
  refine ⟨by rw [houts, hreg], ?_, ?_⟩
  · rw [hcalls, hreg]
    simp
  · rw [hcalls]
    simp

/-- Witness for C5: the concrete two-backend run against the control plane
that rejects server "A" and accepts everything else. -/
theorem partial_failure_isolation_witness :
    (mainRun oAB cfg0).outcomes =
      [("A", some (.wrap "failed to finally add server A"
          (.api (Call.addServer (mkServer cfg0 bA))))),
       ("B", none)] ∧
    Call.addServer (mkServer cfg0 bB) ∈ (mainRun oAB cfg0).calls ∧
    Call.setLoadBalancingAlgorithm "roundrobin" ∈ (mainRun oAB cfg0).calls :=
  partial_failure_isolation oAB cfg0 bA bB rfl rfl rfl rfl rfl rfl

/-- Claim C6: if the algorithm-application call fails, the run aborts with that
failure and no `SetConfig` call (neither retries nor redispatch) is ever
attempted. -/
theorem algorithm_failure_stops_retry_policy (o : Oracle) (cfg : Config)
    (hp : o 0 Call.ping = true)
    (halg : o (registerAll o cfg 1 cfg.backends).2.1
        (Call.setLoadBalancingAlgorithm cfg.loadBalancingAlgorithm) = false) :
    (mainRun o cfg).result =
      .fatalAlgorithm (.api (Call.setLoadBalancingAlgorithm cfg.loadBalancingAlgorithm)) ∧
    (∀ k v, Call.setConfig k v ∉ (mainRun o cfg).calls) := by
  have hcalls : (mainRun o cfg).calls =
      Call.ping :: ((registerAll o cfg 1 cfg.backends).1 ++
        [Call.setLoadBalancingAlgorithm cfg.loadBalancingAlgorithm]) := by
    simp [mainRun, newHAProxyClient, hp, halg]
  refine ⟨by simp [mainRun, newHAProxyClient, hp, halg], ?_⟩
  intro k v hmem
  rw [hcalls] at hmem
  simp at hmem
  obtain ⟨b, _, hform⟩ := registerAll_calls_form o cfg cfg.backends 1 _ hmem
  exact absurd hform (by simp)

/-- Witness for C6: the concrete run against the control plane that rejects
algorithm application ends with the algorithm failure and never issues the
retries call. -/
theorem algorithm_failure_stops_retry_policy_witness :
    (mainRun oNoAlg cfg0).result =
      .fatalAlgorithm (.api (Call.setLoadBalancingAlgorithm "roundrobin")) ∧
    Call.setConfig "retries" "3" ∉ (mainRun oNoAlg cfg0).calls := by
  have h := algorithm_failure_stops_retry_policy oNoAlg cfg0 rfl (by decide)
  exact ⟨h.1, h.2 "retries" "3"⟩

/-- Claim C7: when the first attempt for a server fails and the second succeeds,
`AddServer` is invoked exactly 2 times and `addServerWithRetry` returns
nil (the loop stops on the first success). -/
theorem addServer_succeeds_second_attempt (o : Oracle) (n : Nat) (s : Server)
    (h1 : o n (Call.addServer s) = false)
    (h2 : o (n + 1) (Call.addServer s) = true) :
    (addServerWithRetry o n s 3).1 = [Call.addServer s, Call.addServer s] ∧
    (addServerWithRetry o n s 3).2.2 = none := by
  simp [addServerWithRetry, addServerLoop, h1, h2]

/-- Witness for C7: against the control plane whose first call fails and
later calls succeed, registering the server built for `bA` issues exactly
two `AddServer` calls and succeeds. -/
theorem addServer_succeeds_second_attempt_witness :
    (addServerWithRetry oSecond 0 (mkServer cfg0 bA) 3).1 =
      [Call.addServer (mkServer cfg0 bA), Call.addServer (mkServer cfg0 bA)] ∧
    (addServerWithRetry oSecond 0 (mkServer cfg0 bA) 3).2.2 = none :=
  addServer_succeeds_second_attempt oSecond 0 (mkServer cfg0 bA) rfl rfl

/-- Claim C8: for every configuration with `health_check.enabled = true`, every
server registered by the run carries the interval as the duration string
`"<N>s"` together with the configured fall and rise values, and the
transmitted request includes those health fields. -/
theorem health_fields_transmitted_when_enabled (o : Oracle) (cfg : Config)
    (hen : cfg.healthCheck.enabled = true) (s : Server)
    (hs : Call.addServer s ∈ (mainRun o cfg).calls) :
    s.inter = toString cfg.healthCheck.interval ++ "s" ∧
    s.fall = cfg.healthCheck.fall ∧
    s.rise = cfg.healthCheck.rise ∧
    (transmittedRequest s).healthFields =
      some (toString cfg.healthCheck.interval ++ "s",
        cfg.healthCheck.fall, cfg.healthCheck.rise) := by
  obtain ⟨b, _, rfl⟩ := mainRun_addServer_form o cfg s hs
  simp [transmittedRequest, mkServer, hen]

/-- Witness for C8: in the concrete enabled configuration with interval 5,
the registered server for `bA` carries the interval as `"5s"` and the
request transmits `("5s", 3, 2)`. -/
theorem health_fields_transmitted_when_enabled_witness :
    cfg0.healthCheck.enabled = true ∧
    (mkServer cfg0 bA).inter = "5s" ∧
    (transmittedRequest (mkServer cfg0 bA)).healthFields = some ("5s", 3, 2) := by
  have h := health_fields_transmitted_when_enabled oAll cfg0 rfl (mkServer cfg0 bA) (by decide)
  exact ⟨rfl, h.1, h.2.2.2⟩

/-- Claim C9: the registration loop issues its calls as one nonempty block per
declared backend, in declared order (each block consists only of
`AddServer` calls for that backend's server value and completes before the
next backend's block starts), and records one outcome per declared backend
in declared order, duplicates included. -/
theorem registration_order (o : Oracle) (cfg : Config) (n : Nat) :
    ∃ blocks : List (List Call),
      (registerAll o cfg n cfg.backends).1 = blocks.flatten ∧
      blocks.length = cfg.backends.length ∧
      (registerAll o cfg n cfg.backends).2.2.map Prod.fst =
        cfg.backends.map BackendConfig.name ∧
      ∀ p ∈ blocks.zip cfg.backends, p.1 ≠ [] ∧
        ∀ c ∈ p.1, c = Call.addServer (mkServer cfg p.2) :=
  registerAll_blocks o cfg cfg.backends n

/-- Witness for C9: the block decomposition instantiated on the concrete
two-backend configuration against the control plane that rejects server
"A". -/
theorem registration_order_witness :
    ∃ blocks : List (List Call),
      (registerAll oAB cfg0 1 cfg0.backends).1 = blocks.flatten ∧
      blocks.length = cfg0.backends.length ∧
      (registerAll oAB cfg0 1 cfg0.backends).2.2.map Prod.fst =
        cfg0.backends.map BackendConfig.name ∧
      ∀ p ∈ blocks.zip cfg0.backends, p.1 ≠ [] ∧
        ∀ c ∈ p.1, c = Call.addServer (mkServer cfg0 p.2) :=
  registration_order oAB cfg0 1

/-- Claim C10: for a retries argument at most 0, `addServerWithRetry` issues no
`AddServer` call at all and still returns a non-nil error, namely the
wrapping of the nil error (no attempt ever set the loop's error
variable). -/
theorem addServer_nonpositive_retries (o : Oracle) (n : Nat) (s : Server) (retries : Int)
    (h : retries ≤ 0) :
    (addServerWithRetry o n s retries).1 = [] ∧
    (addServerWithRetry o n s retries).2.2 =
      some (.wrapNil ("failed to finally add server " ++ s.name)) := by
  unfold addServerWithRetry
  rw [Int.toNat_of_nonpos h]
  simp [addServerLoop, GoError.wrapOpt]

/-- Witness for C10: with retries −1, no call is issued and the returned
error wraps the nil error. -/
theorem addServer_nonpositive_retries_witness :
    (addServerWithRetry oAll 0 (mkServer cfg0 bA) (-1)).1 = [] ∧
    (addServerWithRetry oAll 0 (mkServer cfg0 bA) (-1)).2.2 =
      some (.wrapNil ("failed to finally add server " ++ (mkServer cfg0 bA).name)) :=
  addServer_nonpositive_retries oAll 0 (mkServer cfg0 bA) (-1) (by decide)

end LbHaproxy
